import Mathlib

/-!
Verification of the SLB (simultaneous launch button) authorization kernel.

This file shallowly embeds the Go source of the repository: statuses,
risk tiers and decisions are strings as in `internal/db`; the review
service (`internal/core/review.go`) and the watch command's auto-approve
logic (`internal/cli/watch.go`) are translated function by function.
Parts of the repository whose source is not available (the `internal/db`
store, the request state machine in `internal/core`, the rollback
restore) are modelled from the specification, as marked in their doc
comments.  Time is modelled as natural-number seconds; the store is a
record of lists.
-/

namespace SLB

/-! ### Statuses, tiers and decisions (string-typed, as in `internal/db`) -/

abbrev RequestStatus := String

def StatusPending : RequestStatus := "pending"
def StatusApproved : RequestStatus := "approved"
def StatusRejected : RequestStatus := "rejected"
def StatusExecuting : RequestStatus := "executing"
def StatusExecuted : RequestStatus := "executed"
def StatusExecutionFailed : RequestStatus := "execution_failed"
def StatusCancelled : RequestStatus := "cancelled"
def StatusTimeout : RequestStatus := "timeout"
def StatusTimedOut : RequestStatus := "timed_out"
def StatusEscalated : RequestStatus := "escalated"

abbrev RiskTier := String

def RiskTierSafe : RiskTier := "safe"
def RiskTierCaution : RiskTier := "caution"
def RiskTierDangerous : RiskTier := "dangerous"
def RiskTierCritical : RiskTier := "critical"

abbrev Decision := String

def DecisionApprove : Decision := "approve"
def DecisionReject : Decision := "reject"

/-! ### Auto-approve decision (`internal/cli/watch.go`) -/

/-- Result of the pure auto-approve decision function (watch.go). -/
structure AutoApproveDecision where
  ShouldApprove : Bool
  Reason : String
deriving Repr, DecidableEq

/-- `shouldAutoApproveCaution` from `internal/cli/watch.go`: the pure,
safety-critical decision of whether a request may be auto-approved.
Guard 1: the request must still be pending; guard 2: only the caution
tier may be auto-approved. -/
def shouldAutoApproveCaution (requestStatus : RequestStatus)
    (requestRiskTier : RiskTier) : AutoApproveDecision :=
  if requestStatus ≠ StatusPending then
    { ShouldApprove := false
      Reason := "request not pending (status: " ++ requestStatus ++ ")" }
  else if requestRiskTier ≠ RiskTierCaution then
    { ShouldApprove := false
      Reason := "not caution tier (tier: " ++ requestRiskTier ++ ")" }
  else
    { ShouldApprove := true
      Reason := "caution tier request eligible for auto-approval" }

/-- A three-part string concatenation with a nonempty first part is nonempty. -/
lemma append3_ne_empty (a s c : String) (ha : 0 < a.length) :
    (a ++ s ++ c) ≠ "" := by
  intro h
  have h' := congrArg String.length h
  rw [String.length_append, String.length_append] at h'
  have hz : ("" : String).length = 0 := rfl
  rw [hz] at h'
  omega

/-- **C1.** `shouldAutoApproveCaution(s, t)` returns `ShouldApprove = true`
iff `s = pending` and `t = caution`; every other combination yields
`ShouldApprove = false` together with a non-empty reason. -/
theorem shouldAutoApproveCaution_iff_pending_caution :
    ∀ (s : RequestStatus) (t : RiskTier),
      ((shouldAutoApproveCaution s t).ShouldApprove = true ↔
        (s = StatusPending ∧ t = RiskTierCaution)) ∧
      ((shouldAutoApproveCaution s t).ShouldApprove = false →
        (shouldAutoApproveCaution s t).Reason ≠ "") := by
  intro s t
  by_cases hs : s = StatusPending
  · by_cases ht : t = RiskTierCaution
    · subst hs; subst ht
      constructor
      · simp [shouldAutoApproveCaution]
      · intro hfalse
        simp [shouldAutoApproveCaution] at hfalse
    · constructor
      · simp [shouldAutoApproveCaution, hs, ht]
      · intro _
        subst hs
        simp only [shouldAutoApproveCaution]
        rw [if_neg (by simp [StatusPending]), if_pos ht]
        exact append3_ne_empty "not caution tier (tier: " t ")" (by decide)
  · constructor
    · simp [shouldAutoApproveCaution, hs]
    · intro _
      simp only [shouldAutoApproveCaution]
      rw [if_pos hs]
      exact append3_ne_empty "request not pending (status: " s ")" (by decide)

/-- Witness for C1: the non-pending/caution combination `(approved, caution)`
is refused with a non-empty reason, by applying the theorem at that input. -/
theorem shouldAutoApproveCaution_iff_pending_caution_witness :
    (shouldAutoApproveCaution "approved" "caution").ShouldApprove = false ∧
    (shouldAutoApproveCaution "approved" "caution").Reason ≠ "" :=
  ⟨by decide,
   (shouldAutoApproveCaution_iff_pending_caution "approved" "caution").2 (by decide)⟩

/-! ### Request record and the lifecycle state machine

The `Request` fields mirror `internal/db`'s request row; times are
natural-number seconds (the Go zero time is `0`, nullable times are
`Option Nat`). -/

/-- A request row, mirroring `internal/db.Request` as used by
`internal/core/review.go`, `internal/cli/watch.go` and the state-machine
tests in `internal/core`. -/
structure Request where
  ID : String
  RequestorSessionID : String
  RequestorModel : String
  RiskTier : RiskTier
  Status : RequestStatus
  MinApprovals : Nat
  RequireDifferentModel : Bool
  CreatedAt : Nat
  ApprovalExpiresAt : Option Nat
  ResolvedAt : Option Nat
deriving Repr, DecidableEq

/-- Modelled from the spec: `CanTransition` (in `internal/core`, whose
source file is absent from `src/`; only `TestCanTransition` is present).
Per §4.3 each status has a fixed list of allowed successor statuses:
`∅ → pending`; `pending → approved | rejected | cancelled | timeout`;
`timeout → escalated`; `approved → executing | cancelled`;
`executing → executed | execution_failed | timed_out`. -/
def CanTransition (fromStatus toStatus : RequestStatus) : Bool :=
  match fromStatus with
  | "" => toStatus == StatusPending
  | "pending" =>
      toStatus == StatusApproved || toStatus == StatusRejected ||
      toStatus == StatusCancelled || toStatus == StatusTimeout
  | "timeout" => toStatus == StatusEscalated
  | "approved" => toStatus == StatusExecuting || toStatus == StatusCancelled
  | "executing" =>
      toStatus == StatusExecuted || toStatus == StatusExecutionFailed ||
      toStatus == StatusTimedOut
  | _ => false

/-- Modelled from the spec: `IsTerminal` (in `internal/core`, absent from
`src/`; only `TestIsTerminal` is present).  The terminal set that
concludes a request is `{rejected, executed, execution_failed, cancelled,
timed_out}`; `timeout` is not terminal (it may be escalated). -/
def IsTerminal (status : RequestStatus) : Bool :=
  status == StatusRejected || status == StatusExecuted ||
  status == StatusExecutionFailed || status == StatusCancelled ||
  status == StatusTimedOut

/-- Modelled from the spec: `defaultApprovalTTL` (constant of
`internal/core`, absent from `src/`).  The spec fixes no numeric value,
only that the critical TTL is shorter; fifteen minutes in seconds is a
representative value. -/
def defaultApprovalTTL : Nat := 900

/-- Modelled from the spec: `defaultApprovalTTLCritical` (constant of
`internal/core`, absent from `src/`): the shorter TTL used for the
critical tier; five minutes in seconds. -/
def defaultApprovalTTLCritical : Nat := 300

/-- TTL by tier: `defaultApprovalTTLCritical` for the critical tier,
`defaultApprovalTTL` otherwise (the dangerous tier in particular). -/
def approvalTTL (tier : RiskTier) : Nat :=
  if tier == RiskTierCritical then defaultApprovalTTLCritical
  else defaultApprovalTTL

/-- Modelled from the spec: `Transition` (in `internal/core`, absent from
`src/`; its tests are present).  A disallowed move returns an error and
leaves the request unchanged.  An allowed move sets the new status; on
`∅ → pending` a zero `created_at` is set to now; on `pending → approved`
`approval_expires_at` is set to `now + TTL(tier)`; on entry to a terminal
state `resolved_at` is set to now.  The Go function mutates the request
and returns an error; here it returns the (possibly updated) request and
an optional error message. -/
def Transition (now : Nat) (req : Request) (toStatus : RequestStatus) :
    Request × Option String :=
  if CanTransition req.Status toStatus then
    let req1 := { req with Status := toStatus }
    let req2 :=
      if toStatus == StatusPending && req1.CreatedAt == 0 then
        { req1 with CreatedAt := now }
      else req1
    let req3 :=
      if toStatus == StatusApproved then
        { req2 with ApprovalExpiresAt := some (now + approvalTTL req2.RiskTier) }
      else req2
    let req4 :=
      if IsTerminal toStatus then
        { req3 with ResolvedAt := some now }
      else req3
    (req4, none)
  else
    (req, some ("invalid transition from " ++ req.Status ++ " to " ++ toStatus))

/-- The edges of the lifecycle diagram of §4.3, as explicit pairs. -/
def lifecycleEdges : List (RequestStatus × RequestStatus) :=
  [("", StatusPending),
   (StatusPending, StatusApproved), (StatusPending, StatusRejected),
   (StatusPending, StatusCancelled), (StatusPending, StatusTimeout),
   (StatusTimeout, StatusEscalated),
   (StatusApproved, StatusExecuting), (StatusApproved, StatusCancelled),
   (StatusExecuting, StatusExecuted), (StatusExecuting, StatusExecutionFailed),
   (StatusExecuting, StatusTimedOut)]

/-- A request used by several concrete witnesses: freshly created,
pending, dangerous tier. -/
def pendingDangerousReq : Request :=
  { ID := "req-1", RequestorSessionID := "A", RequestorModel := "opus"
    RiskTier := RiskTierDangerous, Status := StatusPending
    MinApprovals := 1, RequireDifferentModel := false
    CreatedAt := 100, ApprovalExpiresAt := none, ResolvedAt := none }

/-- **C2.** `CanTransition` accepts exactly the edges of the lifecycle
diagram and no others (in particular no same-state move), and `Transition`
to a disallowed target returns an error and leaves the request — its
status and `resolved_at` included — unchanged. -/
theorem canTransition_exactly_lifecycle_edges :
    (∀ f t : RequestStatus, CanTransition f t = true ↔ (f, t) ∈ lifecycleEdges) ∧
    (∀ s : RequestStatus, CanTransition s s = false) ∧
    (∀ (now : Nat) (req : Request) (t : RequestStatus),
      CanTransition req.Status t = false →
      (Transition now req t).2.isSome = true ∧ (Transition now req t).1 = req) := by
  refine ⟨?_, ?_, ?_⟩
  · intro f t
    unfold CanTransition
    split <;>
      simp_all [lifecycleEdges, StatusPending, StatusApproved, StatusRejected,
        StatusCancelled, StatusTimeout, StatusEscalated, StatusExecuting,
        StatusExecuted, StatusExecutionFailed, StatusTimedOut, Prod.ext_iff,
        or_assoc]
  · intro s
    unfold CanTransition
    split <;>
      simp_all [StatusPending, StatusApproved, StatusRejected, StatusCancelled,
        StatusTimeout, StatusEscalated, StatusExecuting, StatusExecuted,
        StatusExecutionFailed, StatusTimedOut]
  · intro now req t h
    simp [Transition, h]

/-- Witness for C2: the disallowed move `pending → executing` on a concrete
request errors and leaves the request unchanged. -/
theorem canTransition_exactly_lifecycle_edges_witness :
    (Transition 200 pendingDangerousReq StatusExecuting).2.isSome = true ∧
    (Transition 200 pendingDangerousReq StatusExecuting).1 = pendingDangerousReq :=
  canTransition_exactly_lifecycle_edges.2.2 200 pendingDangerousReq StatusExecuting
    (by decide)

/-- **C6.** A successful `Transition` into any of the five concluding
terminal states sets `resolved_at` to a non-nil value; a successful
`Transition` into `timeout` leaves `resolved_at` unchanged (hence nil when
it was nil); and `IsTerminal` holds exactly for those five states. -/
theorem transition_resolved_at_terminal :
    (∀ (now : Nat) (req : Request) (t : RequestStatus),
      IsTerminal t = true → (Transition now req t).2 = none →
      (Transition now req t).1.ResolvedAt ≠ none) ∧
    (∀ (now : Nat) (req : Request),
      (Transition now req StatusTimeout).2 = none →
      (Transition now req StatusTimeout).1.ResolvedAt = req.ResolvedAt) ∧
    (∀ s : RequestStatus,
      IsTerminal s = true ↔
        (s = StatusRejected ∨ s = StatusExecuted ∨ s = StatusExecutionFailed ∨
         s = StatusCancelled ∨ s = StatusTimedOut)) := by
  refine ⟨?_, ?_, ?_⟩
  · intro now req t hterm hok
    by_cases hc : CanTransition req.Status t
    · simp [Transition, hc, hterm]
    · simp [Transition, hc] at hok
  · intro now req hok
    by_cases hc : CanTransition req.Status "timeout" = true
    · simp [Transition, hc, StatusTimeout, StatusPending, StatusApproved, IsTerminal,
        StatusRejected, StatusExecuted, StatusExecutionFailed, StatusCancelled,
        StatusTimedOut]
    · simp [Transition, StatusTimeout, hc] at hok
  · intro s
    simp [IsTerminal, StatusRejected, StatusExecuted, StatusExecutionFailed,
      StatusCancelled, StatusTimedOut, or_assoc]

/-- Witness for C6: the move `pending → rejected` on a concrete request
succeeds and yields a non-nil `resolved_at`. -/
theorem transition_resolved_at_terminal_witness :
    (Transition 200 pendingDangerousReq StatusRejected).1.ResolvedAt ≠ none :=
  transition_resolved_at_terminal.1 200 pendingDangerousReq StatusRejected
    (by decide) (by decide)

/-- **C7.** A `Transition` from `pending` to `approved` at time `now` with
`before ≤ now ≤ after` succeeds and sets `approval_expires_at` to a non-nil
time within `[before + TTL, after + TTL]`, where the TTL is
`defaultApprovalTTL` for the dangerous tier and the shorter
`defaultApprovalTTLCritical` for the critical tier. -/
theorem transition_approved_sets_ttl_expiry :
    ∀ (before now after : Nat) (req : Request),
      before ≤ now → now ≤ after → req.Status = StatusPending →
      ∃ exp : Nat,
        (Transition now req StatusApproved).2 = none ∧
        (Transition now req StatusApproved).1.ApprovalExpiresAt = some exp ∧
        (req.RiskTier = RiskTierDangerous →
          before + defaultApprovalTTL ≤ exp ∧ exp ≤ after + defaultApprovalTTL) ∧
        (req.RiskTier = RiskTierCritical →
          before + defaultApprovalTTLCritical ≤ exp ∧
          exp ≤ after + defaultApprovalTTLCritical) := by
  intro before now after req hb ha hst
  have hc : CanTransition req.Status "approved" = true := by
    rw [hst]; decide
  refine ⟨now + approvalTTL req.RiskTier, ?_, ?_, ?_, ?_⟩
  · simp [Transition, hc, StatusApproved]
  · simp [Transition, hc, StatusApproved, StatusPending, IsTerminal,
      StatusRejected, StatusExecuted, StatusExecutionFailed, StatusCancelled,
      StatusTimedOut]
  · intro htier
    rw [htier]
    have : approvalTTL RiskTierDangerous = defaultApprovalTTL := by decide
    rw [this]
    omega
  · intro htier
    rw [htier]
    have : approvalTTL RiskTierCritical = defaultApprovalTTLCritical := by decide
    rw [this]
    omega

/-- Witness for C7: approving a concrete pending dangerous request at time
150 with bracket `[120, 180]` lands the expiry in
`[120 + TTL, 180 + TTL]`. -/
theorem transition_approved_sets_ttl_expiry_witness :
    ∃ exp : Nat,
      (Transition 150 pendingDangerousReq StatusApproved).2 = none ∧
      (Transition 150 pendingDangerousReq StatusApproved).1.ApprovalExpiresAt =
        some exp ∧
      (pendingDangerousReq.RiskTier = RiskTierDangerous →
        120 + defaultApprovalTTL ≤ exp ∧ exp ≤ 180 + defaultApprovalTTL) ∧
      (pendingDangerousReq.RiskTier = RiskTierCritical →
        120 + defaultApprovalTTLCritical ≤ exp ∧
        exp ≤ 180 + defaultApprovalTTLCritical) :=
  transition_approved_sets_ttl_expiry 120 150 180 pendingDangerousReq
    (by decide) (by decide) (by decide)

/-! ### Sessions, reviews and the state store

`internal/db` is not under `src/`; the entities and the CRUD operations
the review service consumes are modelled from the spec (§3, C3 "State
Store"). -/

/-- Modelled from the spec: a reviewer/requestor session row of
`internal/db` (identifier, agent name, model identifier, activation flag,
HMAC key material). -/
structure Session where
  ID : String
  AgentName : String
  Model : String
  Active : Bool
  Key : String
deriving Repr, DecidableEq

/-- `IsActive` on a session (spec §3: only active sessions may review). -/
def Session.IsActive (s : Session) : Bool := s.Active

/-- Modelled from the spec: a review row of `internal/db` (request id,
reviewer session id + agent + model, decision, HMAC signature, signature
timestamp, comments, creation time). -/
structure Review where
  RequestID : String
  ReviewerSessionID : String
  ReviewerAgent : String
  ReviewerModel : String
  Decision : Decision
  Signature : String
  SignatureTimestamp : Nat
  Comments : String
  CreatedAt : Nat
deriving Repr, DecidableEq

/-- Modelled from the spec: `db.ComputeReviewSignature`, the HMAC of
`(request_id ‖ decision ‖ timestamp)` under the session key (§3).  The
HMAC itself is modelled as a symbolic tagged string: deterministic in its
inputs and never empty, which is what the claims rely on. -/
def ComputeReviewSignature (sessionKey requestID : String) (decision : Decision)
    (timestamp : Nat) : String :=
  "hmac-sha256(" ++ sessionKey ++ "," ++ requestID ++ "|" ++ decision ++ "|" ++
    toString timestamp ++ ")"

/-- Modelled from the spec: `db.VerifyReviewSignature` recomputes the
signature and compares. -/
def VerifyReviewSignature (sessionKey requestID : String) (decision : Decision)
    (timestamp : Nat) (signature : String) : Bool :=
  signature == ComputeReviewSignature sessionKey requestID decision timestamp

/-- `VerifyReview` from `internal/core/review.go`: validates a review's
signature under a session key. -/
def VerifyReview (review : Review) (sessionKey : String) : Bool :=
  VerifyReviewSignature sessionKey review.RequestID review.Decision
    review.SignatureTimestamp review.Signature

/-- Modelled from the spec: the state store (sessions, requests, reviews)
owned by `internal/db`. -/
structure DB where
  sessions : List Session
  requests : List Request
  reviews : List Review
deriving Repr, DecidableEq

/-- Modelled from the spec: session lookup by id. -/
def DB.GetSession (db : DB) (id : String) : Option Session :=
  db.sessions.find? (fun s => s.ID == id)

/-- Modelled from the spec: request lookup by id. -/
def DB.GetRequest (db : DB) (id : String) : Option Request :=
  db.requests.find? (fun r => r.ID == id)

/-- Modelled from the spec: has this reviewer session already reviewed
this request (at most one review per (request, reviewer session))? -/
def DB.HasReviewerAlreadyReviewed (db : DB) (requestID sessionID : String) : Bool :=
  db.reviews.any (fun r => r.RequestID == requestID && r.ReviewerSessionID == sessionID)

/-- Modelled from the spec: persist a review row. -/
def DB.CreateReview (db : DB) (r : Review) : DB :=
  { db with reviews := db.reviews ++ [r] }

/-- Modelled from the spec: all reviews of one request. -/
def DB.ListReviewsForRequest (db : DB) (requestID : String) : List Review :=
  db.reviews.filter (fun r => r.RequestID == requestID)

/-- Modelled from the spec: count a request's reviews by decision,
returning (approvals, rejections). -/
def DB.CountReviewsByDecision (db : DB) (requestID : String) : Nat × Nat :=
  ((db.ListReviewsForRequest requestID).filter
      (fun r => r.Decision == DecisionApprove) |>.length,
   (db.ListReviewsForRequest requestID).filter
      (fun r => r.Decision == DecisionReject) |>.length)

/-- Modelled from the spec: atomically update one request's status. -/
def DB.UpdateRequestStatus (db : DB) (requestID : String) (status : RequestStatus) : DB :=
  { db with requests :=
      db.requests.map (fun r => if r.ID == requestID then { r with Status := status } else r) }

/-! ### Review service (`internal/core/review.go`) -/

/-- Conflict-resolution policy names (string-typed as in Go). -/
abbrev ConflictResolution := String

def ConflictAnyRejectionBlocks : ConflictResolution := "any_rejection_blocks"
def ConflictFirstWins : ConflictResolution := "first_wins"
def ConflictHumanBreaksTie : ConflictResolution := "human_breaks_tie"

/-- `ReviewConfig` from review.go. -/
structure ReviewConfig where
  ConflictResolution : String
  TrustedSelfApprove : List String
  TrustedSelfApproveDelay : Nat
deriving Repr, DecidableEq

/-- `DefaultReviewConfig` from review.go: any-rejection-blocks, no trusted
self-approvers, five-minute delay. -/
def DefaultReviewConfig : ReviewConfig :=
  { ConflictResolution := ConflictAnyRejectionBlocks
    TrustedSelfApprove := []
    TrustedSelfApproveDelay := 300 }

/-- `ReviewOptions` from review.go. -/
structure ReviewOptions where
  SessionID : String
  SessionKey : String
  RequestID : String
  Decision : Decision
  Comments : String
deriving Repr, DecidableEq

/-- `ReviewResult` from review.go. -/
structure ReviewResult where
  Review : Review
  RequestStatusChanged : Bool
  NewRequestStatus : RequestStatus
  Approvals : Nat
  Rejections : Nat
deriving Repr, DecidableEq

/-- The distinct error returns of `SubmitReview` in review.go. -/
inductive ReviewError where
  | sessionIDRequired
  | requestIDRequired
  | missingSessionKey
  | invalidDecision
  | sessionNotFound
  | sessionInactive
  | requestNotFound
  | requestNotPending (status : RequestStatus)
  | selfReview
  | trustedSelfApproveDelay
  | alreadyReviewed
  | requireDiffModel
deriving Repr, DecidableEq

/-- `isTrustedSelfApprove` from review.go. -/
def isTrustedSelfApprove (config : ReviewConfig) (agentName : String) : Bool :=
  config.TrustedSelfApprove.contains agentName

/-- `determineNewStatus` from review.go: the conflict-resolution switch.
Returns `""` for "no status change". -/
def determineNewStatus (config : ReviewConfig) (request : Request)
    (decision : Decision) (approvals rejections : Nat) : RequestStatus :=
  match config.ConflictResolution with
  | "any_rejection_blocks" =>
      if rejections > 0 then StatusRejected
      else if approvals ≥ request.MinApprovals then StatusApproved
      else ""
  | "first_wins" =>
      if approvals + rejections = 1 then
        if decision == DecisionApprove then StatusApproved else StatusRejected
      else ""
  | "human_breaks_tie" =>
      if approvals > 0 && rejections > 0 then StatusEscalated
      else if approvals ≥ request.MinApprovals then StatusApproved
      else if rejections > 0 then StatusRejected
      else ""
  | _ => ""

/-- Steps 6–8 of `SubmitReview` in review.go, reached once every
validation has passed: compute the signature, build and persist the
review row, recount approvals and rejections, and apply the
conflict-resolution rules to decide a status change. -/
def submitReviewFinalize (config : ReviewConfig) (db : DB) (now : Nat)
    (opts : ReviewOptions) (session : Session) (request : Request) :
    DB × ReviewResult :=
  let timestamp := now
  let signature :=
    ComputeReviewSignature opts.SessionKey opts.RequestID opts.Decision timestamp
  let review : Review :=
    { RequestID := opts.RequestID
      ReviewerSessionID := opts.SessionID
      ReviewerAgent := session.AgentName
      ReviewerModel := session.Model
      Decision := opts.Decision
      Signature := signature
      SignatureTimestamp := timestamp
      Comments := opts.Comments
      CreatedAt := now }
  let db1 := db.CreateReview review
  let counts := db1.CountReviewsByDecision opts.RequestID
  let approvals := counts.1
  let rejections := counts.2
  let newStatus := determineNewStatus config request opts.Decision approvals rejections
  if newStatus != "" && newStatus != request.Status then
    (db1.UpdateRequestStatus opts.RequestID newStatus,
     { Review := review, RequestStatusChanged := true
       NewRequestStatus := newStatus
       Approvals := approvals, Rejections := rejections })
  else
    (db1,
     { Review := review, RequestStatusChanged := false
       NewRequestStatus := ""
       Approvals := approvals, Rejections := rejections })

/-- `SubmitReview` from review.go, with the store threaded explicitly and
`now` standing for the wall clock.  The validation and error order is the
source's: required fields, session lookup + active check, request lookup +
pending check, self-review prohibition (with the trusted-agent delay
escape), idempotence, different-model rule for approvals, then signature,
review row creation, recount, and the conflict-policy status change
(`submitReviewFinalize`). -/
def SubmitReview (config : ReviewConfig) (db : DB) (now : Nat)
    (opts : ReviewOptions) : Except ReviewError (DB × ReviewResult) :=
  if opts.SessionID == "" then .error .sessionIDRequired
  else if opts.RequestID == "" then .error .requestIDRequired
  else if opts.SessionKey == "" then .error .missingSessionKey
  else if opts.Decision != DecisionApprove && opts.Decision != DecisionReject then
    .error .invalidDecision
  else
    match db.GetSession opts.SessionID with
    | none => .error .sessionNotFound
    | some session =>
      if !session.IsActive then .error .sessionInactive
      else
        match db.GetRequest opts.RequestID with
        | none => .error .requestNotFound
        | some request =>
          if request.Status != StatusPending then
            .error (.requestNotPending request.Status)
          else if opts.SessionID == request.RequestorSessionID &&
                  !isTrustedSelfApprove config session.AgentName then
            .error .selfReview
          else if opts.SessionID == request.RequestorSessionID &&
                  (now : Int) - (request.CreatedAt : Int) <
                    (config.TrustedSelfApproveDelay : Int) then
            .error .trustedSelfApproveDelay
          else if db.HasReviewerAlreadyReviewed opts.RequestID opts.SessionID then
            .error .alreadyReviewed
          else if opts.Decision == DecisionApprove && request.RequireDifferentModel &&
                  session.Model == request.RequestorModel then
            .error .requireDiffModel
          else
            .ok (submitReviewFinalize config db now opts session request)

/-- `CanReview` from review.go: session active, request pending,
self-review rules, idempotence — and, notably, no model comparison. -/
def CanReview (config : ReviewConfig) (db : DB) (now : Nat)
    (sessionID requestID : String) : Bool × String :=
  match db.GetSession sessionID with
  | none => (false, "session not found")
  | some session =>
    if !session.IsActive then (false, "session is not active")
    else
      match db.GetRequest requestID with
      | none => (false, "request not found")
      | some request =>
        if request.Status != StatusPending then
          (false, "request is not pending (status: " ++ request.Status ++ ")")
        else if sessionID == request.RequestorSessionID &&
                !isTrustedSelfApprove config session.AgentName then
          (false, "cannot review your own request")
        else if sessionID == request.RequestorSessionID &&
                (now : Int) - (request.CreatedAt : Int) <
                  (config.TrustedSelfApproveDelay : Int) then
          (false, "trusted self-approve requires delay")
        else if db.HasReviewerAlreadyReviewed requestID sessionID then
          (false, "you have already reviewed this request")
        else
          (true, "")

/-- `autoApproveCaution` from `internal/cli/watch.go`: the side-effectful
wrapper around the pure decision function.  Looks the request up, applies
`shouldAutoApproveCaution`, treats an already-resolved request as success,
and otherwise persists an approval review — with only the Go struct
literal's fields set, so `Signature` is the zero value `""` and
`SignatureTimestamp` the zero time — then promotes the request to
approved once the approval count reaches `min_approvals`. -/
def autoApproveCaution (flagWatchSessionID : String) (now : Nat) (db : DB)
    (requestID : String) : Except String DB :=
  match db.GetRequest requestID with
  | none => .error "getting request"
  | some request =>
    let decision := shouldAutoApproveCaution request.Status request.RiskTier
    if !decision.ShouldApprove then
      if request.Status != StatusPending then .ok db
      else .error ("auto-approve denied: " ++ decision.Reason)
    else
      let session := if flagWatchSessionID == "" then "auto-approve" else flagWatchSessionID
      let review : Review :=
        { RequestID := requestID
          ReviewerSessionID := session
          ReviewerAgent := "auto-reviewer"
          ReviewerModel := "auto"
          Decision := DecisionApprove
          Signature := ""
          SignatureTimestamp := 0
          Comments := "Auto-approved CAUTION tier request"
          CreatedAt := now }
      let db1 := db.CreateReview review
      let reviews := db1.ListReviewsForRequest requestID
      let approvals := (reviews.filter (fun r => r.Decision == DecisionApprove)).length
      if approvals ≥ request.MinApprovals then
        .ok (db1.UpdateRequestStatus requestID StatusApproved)
      else
        .ok db1

/-! ### C9: `CanReview` vs the different-model rule -/

/-- A critical-tier pending request from session `A` (model "opus") that
requires a different model. -/
def criticalReq : Request :=
  { ID := "R", RequestorSessionID := "A", RequestorModel := "opus"
    RiskTier := RiskTierCritical, Status := StatusPending
    MinApprovals := 2, RequireDifferentModel := true
    CreatedAt := 100, ApprovalExpiresAt := none, ResolvedAt := none }

/-- An active reviewer session distinct from the requestor, with the model
parametric (the requestor's model is "opus"). -/
def reviewerB (model : String) : Session :=
  { ID := "B", AgentName := "beta", Model := model, Active := true, Key := "kB" }

/-- The store for the C9 scenario, with reviewer B's model parametric. -/
def modelMatchDB (model : String) : DB :=
  { sessions := [reviewerB model], requests := [criticalReq], reviews := [] }

/-- **C9.** In the state where active session B (model "opus", same as the
requestor's) has not yet reviewed the pending request with
`require_different_model = true`, `CanReview` answers `(true, "")` while
`SubmitReview` with an approval fails with `ErrRequireDiffModel`; and
`CanReview`'s answer is the same whatever model session B has, i.e. it
performs no model comparison. -/
theorem canReview_ignores_model_but_submit_checks :
    CanReview DefaultReviewConfig (modelMatchDB "opus") 200 "B" "R" = (true, "") ∧
    SubmitReview DefaultReviewConfig (modelMatchDB "opus") 200
      { SessionID := "B", SessionKey := "kB", RequestID := "R"
        Decision := DecisionApprove, Comments := "" } =
      .error .requireDiffModel ∧
    (∀ model : String,
      CanReview DefaultReviewConfig (modelMatchDB model) 200 "B" "R" =
        CanReview DefaultReviewConfig (modelMatchDB "opus") 200 "B" "R") := by
  refine ⟨by rfl, by rfl, ?_⟩
  intro model
  rfl

/-! ### C10: `autoApproveCaution` on non-pending and non-caution requests -/

/-- On a pending caution request `autoApproveCaution` always succeeds
(whether or not the approval threshold is reached). -/
lemma autoApprove_pending_caution_ok (flag : String) (now : Nat) (db : DB)
    (rid : String) (req : Request) (hget : db.GetRequest rid = some req)
    (hstatus : req.Status = StatusPending) (htier : req.RiskTier = RiskTierCaution) :
    ∃ db', autoApproveCaution flag now db rid = .ok db' := by
  unfold autoApproveCaution
  simp only [hget]
  rw [show shouldAutoApproveCaution req.Status req.RiskTier =
        { ShouldApprove := true
          Reason := "caution tier request eligible for auto-approval" } from by
      simp [shouldAutoApproveCaution, hstatus, htier]]
  simp only [Bool.not_true, Bool.false_eq_true, if_false]
  split <;> split <;> exact ⟨_, rfl⟩

/-- **C10.** For any store in which the request exists: when its status is
no longer pending, `autoApproveCaution` returns success with the store
unchanged (no review created); and it returns an error exactly when the
request is still pending but its tier is not caution. -/
theorem autoApprove_resolved_is_success :
    ∀ (flagSessionID : String) (now : Nat) (db : DB) (rid : String) (req : Request),
      db.GetRequest rid = some req →
      ((req.Status ≠ StatusPending →
          autoApproveCaution flagSessionID now db rid = .ok db) ∧
       ((∃ e, autoApproveCaution flagSessionID now db rid = .error e) ↔
          (req.Status = StatusPending ∧ req.RiskTier ≠ RiskTierCaution))) := by
  intro flagSessionID now db rid req hget
  constructor
  · intro hstatus
    simp [autoApproveCaution, hget, shouldAutoApproveCaution, hstatus]
  · constructor
    · rintro ⟨e, he⟩
      by_cases hstatus : req.Status = StatusPending
      · by_cases htier : req.RiskTier = RiskTierCaution
        · exfalso
          obtain ⟨db', hok⟩ :=
            autoApprove_pending_caution_ok flagSessionID now db rid req hget hstatus htier
          rw [hok] at he
          cases he
        · exact ⟨hstatus, htier⟩
      · exfalso
        simp [autoApproveCaution, hget, shouldAutoApproveCaution, hstatus] at he
    · rintro ⟨hstatus, htier⟩
      refine ⟨"auto-approve denied: " ++ ("not caution tier (tier: " ++ req.RiskTier ++ ")"),
        ?_⟩
      simp [autoApproveCaution, hget, shouldAutoApproveCaution, hstatus, htier]

/-! ### C3: review signatures -/

/-- The tagged-string HMAC model never produces the empty string. -/
lemma computeReviewSignature_ne_empty (sessionKey requestID : String)
    (decision : Decision) (timestamp : Nat) :
    ComputeReviewSignature sessionKey requestID decision timestamp ≠ "" := by
  unfold ComputeReviewSignature
  intro h
  have h' := congrArg String.length h
  simp only [String.length_append] at h'
  have hz : ("" : String).length = 0 := rfl
  have h12 : ("hmac-sha256(" : String).length = 12 := rfl
  rw [hz, h12] at h'
  omega

/-- A pending caution-tier request, one approval required. -/
def pendingCautionReq : Request :=
  { ID := "RC", RequestorSessionID := "A", RequestorModel := "opus"
    RiskTier := RiskTierCaution, Status := StatusPending
    MinApprovals := 1, RequireDifferentModel := false
    CreatedAt := 100, ApprovalExpiresAt := none, ResolvedAt := none }

/-- A store holding only the pending caution request. -/
def pendingCautionDB : DB :=
  { sessions := [], requests := [pendingCautionReq], reviews := [] }

/-- The review row the watch auto-approve path persists for
`pendingCautionReq` at time 500: Go-zero `Signature` and
`SignatureTimestamp`, since watch.go sets neither. -/
def autoApprovedReview : Review :=
  { RequestID := "RC", ReviewerSessionID := "auto-approve"
    ReviewerAgent := "auto-reviewer", ReviewerModel := "auto"
    Decision := DecisionApprove, Signature := "", SignatureTimestamp := 0
    Comments := "Auto-approved CAUTION tier request", CreatedAt := 500 }

/-- The store after the auto-approve run: the unsigned review row is
persisted and the request is promoted to approved. -/
def autoApprovedDB : DB :=
  { sessions := []
    requests := [{ pendingCautionReq with Status := StatusApproved }]
    reviews := [autoApprovedReview] }

/-- **C3, counterexample.** The watch auto-approve path persists a review
whose signature is the empty string and which `VerifyReview` accepts under
no session key whatsoever — so not every persisted review carries a valid
HMAC signature. -/
theorem auto_approve_persists_unsigned_review :
    autoApproveCaution "" 500 pendingCautionDB "RC" = .ok autoApprovedDB ∧
    autoApprovedReview ∈ autoApprovedDB.reviews ∧
    autoApprovedReview.Signature = "" ∧
    ∀ k : String, VerifyReview autoApprovedReview k = false := by
  refine ⟨by rfl, by decide, by rfl, ?_⟩
  intro k
  simp only [VerifyReview, VerifyReviewSignature, autoApprovedReview]
  rw [beq_eq_false_iff_ne]
  exact fun h => computeReviewSignature_ne_empty k "RC" DecisionApprove 0 h.symm

/-- The review built by `submitReviewFinalize` is signed with the
submitted session key, verifies under it, and is persisted. -/
lemma submitReviewFinalize_signed (config : ReviewConfig) (db : DB) (now : Nat)
    (opts : ReviewOptions) (session : Session) (request : Request) :
    (submitReviewFinalize config db now opts session request).2.Review.Signature =
      ComputeReviewSignature opts.SessionKey opts.RequestID opts.Decision
        (submitReviewFinalize config db now opts session
          request).2.Review.SignatureTimestamp ∧
    VerifyReview (submitReviewFinalize config db now opts session request).2.Review
      opts.SessionKey = true ∧
    (submitReviewFinalize config db now opts session request).2.Review ∈
      (submitReviewFinalize config db now opts session request).1.reviews := by
  dsimp only [submitReviewFinalize]
  split <;>
    exact ⟨rfl,
      by simp [VerifyReview, VerifyReviewSignature],
      by simp [DB.CreateReview, DB.UpdateRequestStatus]⟩

/-- **C3, amended.** Every review persisted through `SubmitReview` carries
the HMAC signature over `(request_id, decision, timestamp)` under the
submitted session key, and `VerifyReview` accepts it under that key; the
watch auto-approve path, by contrast, persists its review with an empty
signature (see the counterexample). -/
theorem submitReview_reviews_are_signed :
    ∀ (config : ReviewConfig) (db : DB) (now : Nat) (opts : ReviewOptions)
      (db' : DB) (res : ReviewResult),
      SubmitReview config db now opts = .ok (db', res) →
      res.Review.Signature =
        ComputeReviewSignature opts.SessionKey opts.RequestID opts.Decision
          res.Review.SignatureTimestamp ∧
      VerifyReview res.Review opts.SessionKey = true ∧
      res.Review ∈ db'.reviews := by
  intro config db now opts db' res h
  unfold SubmitReview at h
  repeat
    first
    | cases h
    | split at h
  rw [Except.ok.injEq] at h
  have h1 := congrArg Prod.fst h
  have h2 := congrArg Prod.snd h
  simp only at h1 h2
  rw [← h1, ← h2]
  exact submitReviewFinalize_signed config db now opts _ _

/-- The signed review that `SubmitReview` creates in the witness run. -/
def signedReview : Review :=
  { RequestID := "R", ReviewerSessionID := "B"
    ReviewerAgent := "beta", ReviewerModel := "sonnet"
    Decision := DecisionApprove
    Signature := ComputeReviewSignature "kB" "R" DecisionApprove 200
    SignatureTimestamp := 200, Comments := "", CreatedAt := 200 }

/-- The store after the witness run (one approval of two required, so no
status change). -/
def signedDB : DB :=
  { sessions := [reviewerB "sonnet"], requests := [criticalReq]
    reviews := [signedReview] }

/-- The result record of the witness run. -/
def signedResult : ReviewResult :=
  { Review := signedReview, RequestStatusChanged := false
    NewRequestStatus := "", Approvals := 1, Rejections := 0 }

/-- Witness for the amended C3: a concrete successful `SubmitReview` whose
persisted review verifies under the reviewer's key. -/
theorem submitReview_reviews_are_signed_witness :
    VerifyReview signedReview "kB" = true ∧ signedReview ∈ signedDB.reviews :=
  let h := submitReview_reviews_are_signed DefaultReviewConfig (modelMatchDB "sonnet")
    200 { SessionID := "B", SessionKey := "kB", RequestID := "R"
          Decision := DecisionApprove, Comments := "" }
    signedDB signedResult (by rfl)
  ⟨h.2.1, h.2.2⟩

/-! ### C5: review idempotence -/

/-- `submitReviewFinalize` leaves the session table untouched. -/
lemma submitReviewFinalize_sessions (config : ReviewConfig) (db : DB) (now : Nat)
    (opts : ReviewOptions) (session : Session) (request : Request) :
    (submitReviewFinalize config db now opts session request).1.sessions =
      db.sessions := by
  dsimp only [submitReviewFinalize]
  split <;> rfl

/-- After `submitReviewFinalize`, the submitting session has a review row
for the request on record. -/
lemma submitReviewFinalize_has_reviewed (config : ReviewConfig) (db : DB) (now : Nat)
    (opts : ReviewOptions) (session : Session) (request : Request) :
    (submitReviewFinalize config db now opts session
        request).1.HasReviewerAlreadyReviewed opts.RequestID opts.SessionID = true := by
  dsimp only [submitReviewFinalize]
  split <;>
    simp [DB.HasReviewerAlreadyReviewed, DB.CreateReview, DB.UpdateRequestStatus]

/-- Inversion of a successful `SubmitReview`: all validations passed and
the output is `submitReviewFinalize` of the found session and request. -/
lemma submitReview_ok_inv :
    ∀ (config : ReviewConfig) (db : DB) (now : Nat) (opts : ReviewOptions)
      (db1 : DB) (res : ReviewResult),
      SubmitReview config db now opts = .ok (db1, res) →
      ∃ session request,
        db.GetSession opts.SessionID = some session ∧
        session.IsActive = true ∧
        db.GetRequest opts.RequestID = some request ∧
        ¬opts.SessionID = "" ∧
        ¬opts.RequestID = "" ∧
        ¬opts.SessionKey = "" ∧
        (opts.Decision = DecisionApprove ∨ opts.Decision = DecisionReject) ∧
        submitReviewFinalize config db now opts session request = (db1, res) := by
  intro config db now opts db1 res h
  unfold SubmitReview at h
  repeat
    first
    | cases h
    | split at h
  rw [Except.ok.injEq] at h
  refine ⟨_, _, by assumption, by simp_all, by assumption, by simp_all,
    by simp_all, by simp_all, ?_, h⟩
  have hd : ¬(opts.Decision != DecisionApprove && opts.Decision != DecisionReject) = true := by
    assumption
  rw [Bool.and_eq_true, not_and] at hd
  rcases Classical.em (opts.Decision = DecisionApprove) with hA | hA
  · exact Or.inl hA
  · right
    have h1 : (opts.Decision != DecisionApprove) = true := by simp [hA]
    have h2 := hd h1
    simpa using h2

/-- A pending dangerous-tier request with a single required approval. -/
def dangerousReq1 : Request :=
  { ID := "RD", RequestorSessionID := "A", RequestorModel := "opus"
    RiskTier := RiskTierDangerous, Status := StatusPending
    MinApprovals := 1, RequireDifferentModel := false
    CreatedAt := 100, ApprovalExpiresAt := none, ResolvedAt := none }

/-- Store for the idempotence counterexample: reviewer B, one pending
request needing one approval. -/
def idemDB : DB :=
  { sessions := [reviewerB "opus"], requests := [dangerousReq1], reviews := [] }

/-- The options of both submissions of the counterexample. -/
def idemOpts : ReviewOptions :=
  { SessionID := "B", SessionKey := "kB", RequestID := "RD"
    Decision := DecisionApprove, Comments := "" }

/-- The review row created by the first submission. -/
def idemReview : Review :=
  { RequestID := "RD", ReviewerSessionID := "B"
    ReviewerAgent := "beta", ReviewerModel := "opus"
    Decision := DecisionApprove
    Signature := ComputeReviewSignature "kB" "RD" DecisionApprove 200
    SignatureTimestamp := 200, Comments := "", CreatedAt := 200 }

/-- The store after the first submission: quorum of one reached, request
approved. -/
def idemDB1 : DB :=
  { sessions := [reviewerB "opus"]
    requests := [{ dangerousReq1 with Status := StatusApproved }]
    reviews := [idemReview] }

/-- The result record of the first submission. -/
def idemResult1 : ReviewResult :=
  { Review := idemReview, RequestStatusChanged := true
    NewRequestStatus := StatusApproved, Approvals := 1, Rejections := 0 }

/-- **C5, counterexample.** When the first review reaches the quorum the
request leaves `pending`, and a second submission from the same session
returns `ErrRequestNotPending` — not `ErrAlreadyReviewed` — though it
still adds no review row. -/
theorem second_review_after_quorum_not_already_reviewed :
    SubmitReview DefaultReviewConfig idemDB 200 idemOpts = .ok (idemDB1, idemResult1) ∧
    SubmitReview DefaultReviewConfig idemDB1 300 idemOpts =
      .error (.requestNotPending StatusApproved) ∧
    ReviewError.requestNotPending StatusApproved ≠ ReviewError.alreadyReviewed :=
  ⟨by rfl, by rfl, by decide⟩

/-- **C5, amended.** After a first successful `SubmitReview` from a
session, a second `SubmitReview` from the same session for the same
request always returns an error (so no second review row is created); and
whenever the request is still pending at the second submission and the
reviewer is not the requestor, that error is exactly `ErrAlreadyReviewed`. -/
theorem submitReview_second_submission_errors :
    ∀ (config : ReviewConfig) (db : DB) (now1 now2 : Nat) (opts : ReviewOptions)
      (db1 : DB) (res1 : ReviewResult),
      SubmitReview config db now1 opts = .ok (db1, res1) →
      (∃ e, SubmitReview config db1 now2 opts = .error e) ∧
      (∀ req1, db1.GetRequest opts.RequestID = some req1 →
        req1.Status = StatusPending →
        (opts.SessionID == req1.RequestorSessionID) = false →
        SubmitReview config db1 now2 opts = .error .alreadyReviewed) := by
  intro config db now1 now2 opts db1 res1 h
  obtain ⟨session, request, hses, hact, hreq, hv1, hv2, hv3, hdec, hfin⟩ :=
    submitReview_ok_inv config db now1 opts db1 res1 h
  have hdb1 : db1 = (submitReviewFinalize config db now1 opts session request).1 := by
    rw [hfin]
  have hrev : db1.HasReviewerAlreadyReviewed opts.RequestID opts.SessionID = true := by
    rw [hdb1]
    exact submitReviewFinalize_has_reviewed config db now1 opts session request
  have hses1 : db1.GetSession opts.SessionID = some session := by
    unfold DB.GetSession at hses ⊢
    rw [hdb1, submitReviewFinalize_sessions]
    exact hses
  constructor
  · unfold SubmitReview
    simp only [hses1]
    repeat
      first
      | exact absurd hrev (by assumption)
      | exact ⟨_, rfl⟩
      | split
  · intro req1 hreq1 hpend hnotself
    unfold SubmitReview
    rcases hdec with hA | hR
    · simp [hses1, hreq1, hv1, hv2, hv3, hA, hact, hpend, hnotself, hrev]
    · simp [hses1, hreq1, hv1, hv2, hv3, hR, hact, hpend, hnotself, hrev]

/-- Witness for the amended C5: after reviewer B's successful approval of
the two-approval critical request (which stays pending), B's second
submission fails with `ErrAlreadyReviewed`. -/
theorem submitReview_second_submission_errors_witness :
    SubmitReview DefaultReviewConfig signedDB 300
      { SessionID := "B", SessionKey := "kB", RequestID := "R"
        Decision := DecisionApprove, Comments := "" } = .error .alreadyReviewed :=
  (submitReview_second_submission_errors DefaultReviewConfig (modelMatchDB "sonnet")
      200 300
      { SessionID := "B", SessionKey := "kB", RequestID := "R"
        Decision := DecisionApprove, Comments := "" }
      signedDB signedResult (by rfl)).2
    criticalReq (by rfl) (by rfl) (by decide)

/-! ### C4: conflict-policy outcome of two approvals then a rejection -/

/-- Run timed review submissions in order; a failed submission leaves the
store as it was (the Go service returns before persisting anything). -/
def runReviewSequence (config : ReviewConfig) (db0 : DB)
    (steps : List (Nat × ReviewOptions)) : DB :=
  steps.foldl (fun db step =>
    match SubmitReview config db step.1 step.2 with
    | .ok (db1, _) => db1
    | .error _ => db) db0

/-- The status of a request in a store (empty when absent). -/
def requestStatusIn (db : DB) (rid : String) : RequestStatus :=
  match db.GetRequest rid with
  | some r => r.Status
  | none => ""

/-- An active reviewer session with id-derived agent, model and key. -/
def reviewerSession (id : String) : Session :=
  { ID := id, AgentName := "agent-" ++ id, Model := "m-" ++ id
    Active := true, Key := "key-" ++ id }

/-- The pending dangerous request of the conflict scenario, with the
required approval count a parameter. -/
def conflictReq (minApprovals : Nat) : Request :=
  { ID := "RX", RequestorSessionID := "A", RequestorModel := "opus"
    RiskTier := RiskTierDangerous, Status := StatusPending
    MinApprovals := minApprovals, RequireDifferentModel := false
    CreatedAt := 100, ApprovalExpiresAt := none, ResolvedAt := none }

/-- The conflict-scenario store: three eligible reviewers B, C, D and the
pending request. -/
def conflictDB (minApprovals : Nat) : DB :=
  { sessions := [reviewerSession "B", reviewerSession "C", reviewerSession "D"]
    requests := [conflictReq minApprovals], reviews := [] }

/-- Two approvals (B, C) followed by one rejection (D). -/
def conflictSteps : List (Nat × ReviewOptions) :=
  [(210, { SessionID := "B", SessionKey := "key-B", RequestID := "RX"
           Decision := DecisionApprove, Comments := "" }),
   (220, { SessionID := "C", SessionKey := "key-C", RequestID := "RX"
           Decision := DecisionApprove, Comments := "" }),
   (230, { SessionID := "D", SessionKey := "key-D", RequestID := "RX"
           Decision := DecisionReject, Comments := "" })]

/-- The `human_breaks_tie` configuration. -/
def humanTieConfig : ReviewConfig :=
  { ConflictResolution := ConflictHumanBreaksTie
    TrustedSelfApprove := []
    TrustedSelfApproveDelay := 300 }

/-- **C4, counterexample.** With `min_approvals = 2` the second approval
already flips the request to `approved`, so the rejection is refused
(`ErrRequestNotPending`) and the final status is `approved` under both
conflict policies — not `rejected` (any_rejection_blocks) and not
`escalated` (human_breaks_tie) as the claim states. -/
theorem conflict_sequence_counterexample_min_two :
    requestStatusIn
      (runReviewSequence DefaultReviewConfig (conflictDB 2) conflictSteps) "RX" =
      StatusApproved ∧
    requestStatusIn
      (runReviewSequence humanTieConfig (conflictDB 2) conflictSteps) "RX" =
      StatusApproved ∧
    StatusApproved ≠ StatusRejected ∧
    StatusApproved ≠ StatusEscalated :=
  ⟨by rfl, by rfl, by decide, by decide⟩

/-- **C4, amended.** Provided the two approvals do not yet reach the
quorum (`min_approvals ≥ 3`, so the request is still pending when the
rejection arrives), two approvals followed by one rejection leave the
request `rejected` under `any_rejection_blocks` and `escalated` under
`human_breaks_tie`. -/
theorem conflict_sequence_outcome :
    ∀ minApprovals : Nat, 3 ≤ minApprovals →
      requestStatusIn
        (runReviewSequence DefaultReviewConfig (conflictDB minApprovals)
          conflictSteps) "RX" = StatusRejected ∧
      requestStatusIn
        (runReviewSequence humanTieConfig (conflictDB minApprovals)
          conflictSteps) "RX" = StatusEscalated := by
  intro minApprovals hmin
  obtain ⟨k, rfl⟩ : ∃ k, minApprovals = k + 3 := ⟨minApprovals - 3, by omega⟩
  have hlt1 : ¬(k + 3 ≤ 1) := by omega
  have hlt2 : ¬(k + 3 ≤ 2) := by omega
  constructor <;>
    simp +decide [runReviewSequence, conflictSteps, requestStatusIn, SubmitReview,
      submitReviewFinalize, determineNewStatus, conflictDB, conflictReq,
      reviewerSession, DB.GetSession, DB.GetRequest, DB.HasReviewerAlreadyReviewed,
      DB.CreateReview, DB.CountReviewsByDecision, DB.ListReviewsForRequest,
      DB.UpdateRequestStatus, DefaultReviewConfig, humanTieConfig,
      Session.IsActive, isTrustedSelfApprove, ge_iff_le, hlt1, hlt2]

/-- Witness for the amended C4: at `min_approvals = 3` the sequence ends
`rejected` under the default policy and `escalated` under
`human_breaks_tie`. -/
theorem conflict_sequence_outcome_witness :
    requestStatusIn
      (runReviewSequence DefaultReviewConfig (conflictDB 3) conflictSteps) "RX" =
      StatusRejected ∧
    requestStatusIn
      (runReviewSequence humanTieConfig (conflictDB 3) conflictSteps) "RX" =
      StatusEscalated :=
  conflict_sequence_outcome 3 (by decide)

/-! ### C8: symlink-safe filesystem restore

The rollback engine's source file is absent from `src/` (only
`rollback_test.go` is present); the filesystem restore is modelled from
the spec (§4.7): paths are component lists, a filesystem maps paths to
nodes, and before writing any entry each parent directory in the target
chain is inspected — a symlink parent aborts the restore. -/

/-- A filesystem node: regular file content, directory, or a symlink with
its literal target (never dereferenced, as in the tar capture). -/
inductive FSNode where
  | file (content : String)
  | dir
  | symlink (target : String)
deriving Repr, DecidableEq

/-- A path as a list of components. -/
abbrev FSPath := List String

/-- Modelled from the spec: the filesystem state a restore writes into. -/
structure FileSys where
  entries : List (FSPath × FSNode)
deriving Repr, DecidableEq

/-- `lstat`: look a path up without following symlinks. -/
def FileSys.lookup (fs : FileSys) (p : FSPath) : Option FSNode :=
  (fs.entries.find? (fun e => e.1 == p)).map (fun e => e.2)

/-- Write a node at a path (replacing any previous node there). -/
def FileSys.write (fs : FileSys) (p : FSPath) (n : FSNode) : FileSys :=
  { entries := (fs.entries.filter (fun e => !(e.1 == p))) ++ [(p, n)] }

/-- The proper ancestors of a path, shortest first: for `a/b/c` the
chain `a`, `a/b`. -/
def parentChain : FSPath → List FSPath
  | [] => []
  | [_] => []
  | x :: rest => [x] :: (parentChain rest).map (fun q => x :: q)

/-- Does any parent directory in the target chain `lstat` to a symlink? -/
def hasSymlinkParent (fs : FileSys) (p : FSPath) : Bool :=
  (parentChain p).any (fun q =>
    match fs.lookup q with
    | some (FSNode.symlink _) => true
    | _ => false)

/-- One entry of a captured tar snapshot. -/
structure TarEntry where
  path : FSPath
  node : FSNode
deriving Repr, DecidableEq

/-- Modelled from the spec: the filesystem restore loop — before writing
any entry, the target's parent chain is checked; a symlink parent aborts
with an error and nothing further is written. -/
def restoreEntries (fs : FileSys) : List TarEntry → Except String FileSys
  | [] => .ok fs
  | e :: es =>
    if hasSymlinkParent fs e.path then
      .error "restore: symlink in parent chain"
    else
      restoreEntries (fs.write e.path e.node) es

/-- Modelled from the spec: rollback data of the filesystem kind (the git
and kubernetes kinds drive external tools and are outside this
embedding). -/
structure RollbackData where
  Kind : String
  RollbackPath : String
  Entries : List TarEntry
deriving Repr, DecidableEq

/-- Is a string empty or all whitespace? -/
def isBlank (s : String) : Bool :=
  s.data.all (fun c => c == ' ' || c == '\t' || c == '\n' || c == '\r')

/-- Modelled from the spec: `RestoreRollbackState` — refuses nil data, an
empty or whitespace rollback path, and an unknown kind; dispatches the
filesystem kind to `restoreEntries`. -/
def RestoreRollbackState (fs : FileSys) (data : Option RollbackData) :
    Except String FileSys :=
  match data with
  | none => .error "nil rollback data"
  | some d =>
    if isBlank d.RollbackPath then .error "empty rollback path"
    else if d.Kind == "filesystem" then restoreEntries fs d.Entries
    else .error ("unknown rollback kind: " ++ d.Kind)

/-- The restore trace is symlink-safe: every entry is written into a state
where no parent of its target is a symlink. -/
def safeRestoreTrace : FileSys → List TarEntry → Prop
  | _, [] => True
  | fs, e :: es =>
      hasSymlinkParent fs e.path = false ∧ safeRestoreTrace (fs.write e.path e.node) es

/-- Restoring a concatenation processes the parts in order. -/
lemma restoreEntries_append (fs : FileSys) (pre rest : List TarEntry) :
    restoreEntries fs (pre ++ rest) =
      (restoreEntries fs pre).bind (fun fs1 => restoreEntries fs1 rest) := by
  induction pre generalizing fs with
  | nil => rfl
  | cons e es ih =>
      simp only [List.cons_append, restoreEntries]
      split
      · rfl
      · exact ih _

/-- **C8.** If, at the moment an entry is about to be written, some parent
directory in its target chain is a symlink, the filesystem restore returns
an error and yields no filesystem at all (so nothing is written through
the symlink); and any successful restore has a symlink-safe trace: every
entry it wrote had a symlink-free parent chain at write time. -/
theorem restore_refuses_symlink_parents :
    (∀ (fs : FileSys) (d : RollbackData) (pre : List TarEntry) (e : TarEntry)
       (post : List TarEntry) (fs1 : FileSys),
      d.Kind = "filesystem" → isBlank d.RollbackPath = false →
      d.Entries = pre ++ e :: post →
      restoreEntries fs pre = .ok fs1 →
      hasSymlinkParent fs1 e.path = true →
      RestoreRollbackState fs (some d) = .error "restore: symlink in parent chain") ∧
    (∀ (fs : FileSys) (entries : List TarEntry) (fs' : FileSys),
      restoreEntries fs entries = .ok fs' → safeRestoreTrace fs entries) := by
  constructor
  · intro fs d pre e post fs1 hkind hpath hentries hpre hsym
    simp only [RestoreRollbackState]
    rw [if_neg (by simp [hpath]), if_pos (by simp [hkind]), hentries,
      restoreEntries_append, hpre]
    simp only [Except.bind]
    unfold restoreEntries
    rw [if_pos hsym]
  · intro fs entries
    induction entries generalizing fs with
    | nil => intro fs' _; trivial
    | cons e es ih =>
        intro fs' h
        unfold restoreEntries at h
        split at h
        · cases h
        · exact ⟨by simp_all, ih _ _ h⟩

/-- A filesystem in which `work/build/sub` is a symlink pointing outside. -/
def symlinkFS : FileSys :=
  { entries := [(["work"], FSNode.dir), (["work", "build"], FSNode.dir),
                (["work", "build", "sub"], FSNode.symlink "../outside")] }

/-- Filesystem-kind rollback data whose single entry targets a path under
the symlinked directory. -/
def symlinkData : RollbackData :=
  { Kind := "filesystem", RollbackPath := "rb-1"
    Entries := [{ path := ["work", "build", "sub", "a.txt"]
                  node := FSNode.file "hello" }] }

/-- Witness for C8: restoring `symlinkData` over `symlinkFS` aborts with
the symlink-parent error. -/
theorem restore_refuses_symlink_parents_witness :
    RestoreRollbackState symlinkFS (some symlinkData) =
      .error "restore: symlink in parent chain" :=
  restore_refuses_symlink_parents.1 symlinkFS symlinkData []
    { path := ["work", "build", "sub", "a.txt"], node := FSNode.file "hello" }
    [] symlinkFS (by rfl) (by decide) (by rfl) (by rfl) (by decide)

/-- A request that is already approved, caution tier. -/
def approvedCautionReq : Request :=
  { ID := "RA", RequestorSessionID := "A", RequestorModel := "opus"
    RiskTier := RiskTierCaution, Status := StatusApproved
    MinApprovals := 1, RequireDifferentModel := false
    CreatedAt := 100, ApprovalExpiresAt := some 1000, ResolvedAt := none }

/-- A store holding only the already-approved caution request. -/
def approvedCautionDB : DB :=
  { sessions := [], requests := [approvedCautionReq], reviews := [] }

/-- Witness for C10: on the already-approved request, `autoApproveCaution`
reports success, leaves the store unchanged, and raises no error. -/
theorem autoApprove_resolved_is_success_witness :
    autoApproveCaution "" 500 approvedCautionDB "RA" = .ok approvedCautionDB ∧
    ¬(approvedCautionReq.Status = StatusPending ∧
      approvedCautionReq.RiskTier ≠ RiskTierCaution) :=
  ⟨(autoApprove_resolved_is_success "" 500 approvedCautionDB "RA" approvedCautionReq
      (by decide)).1 (by decide),
   by decide⟩

end SLB
